import Mathlib

/-!
# Verification of the diy-dyndns reconciliation core (main.go)

Shallow embedding of the Go program in `main.go`.  Network effects
(HTTP requests, stdout/stderr writes) are made explicit as a trace of
`Event`s; the outcomes of the three HTTP interactions performed during
one reconciliation cycle are supplied by an `Env` oracle (one value per
call site, since each cycle performs each call at most once per record).
Machine integers (`int`) are modelled as `Int`; `strings.TrimSpace` is
modelled structurally as `trimSpace` below.
`http.NewRequest` never fails here because the URLs the
program builds are assumed well-formed; `json.Marshal` of
`map[string]string{"data": IP}` cannot fail and its payload is carried
structurally (the `"data"` field value) on the PUT event.
-/

namespace DiyDyndns

/-- `DomainConfig` from main.go: one DNS zone plus the subdomain names
to manage. -/
structure DomainConfig where
  domain : String
  subdomains : List String
deriving Repr, DecidableEq

/-- `DomainRecord` from main.go: a DNS record snapshot fetched from the
provider.  (The Go struct tags `json:"..."` name the JSON keys; the
`Weight` field's misspelled tag `jsin:"weight"` is not a json tag, so
encoding/json falls back to the field name, which still matches the key
`weight` case-insensitively.) -/
structure DomainRecord where
  id : Int
  type : String
  name : String
  data : String
  priority : Int
  port : Int
  weight : Int
deriving Repr, DecidableEq

/-- One observable action of the program: an HTTP request issued, or a
line written to stdout / stderr.  The PUT request carries the value of
the `"data"` field of its JSON body and the bearer token of its
`Authorization` header. -/
inductive Event
  | httpGetIP
  | httpListRecords (domain : String) (token : String)
  | httpPut (domain : String) (recordID : Int) (payloadData : String) (token : String)
  | stdout (s : String)
  | stderr (s : String)
deriving Repr, DecidableEq

/-- An HTTP response that was received and whose body was read: status
code and body.  The Go code never inspects the status code. -/
structure HttpResponse where
  status : Nat
  body : String
deriving Repr, DecidableEq

/-- JSON values, for modelling `encoding/json.Unmarshal` of the
record-listing response body. -/
inductive Json
  | null
  | bool (b : Bool)
  | num (n : Int)
  | str (s : String)
  | arr (elems : List Json)
  | obj (fields : List (String × Json))

/-- The body of the record-listing response: either valid JSON or raw
bytes that do not parse as JSON. -/
inductive ListBody
  | json (j : Json)
  | notJson (raw : String)

/-- Oracle for the outcomes of the HTTP calls of one reconciliation
cycle.  `Except.error e` models a transport-level failure (or a failure
reading the response body), carrying the Go error message `e`. -/
structure Env where
  ipResult : Except String HttpResponse
  listResult : Except String (Nat × ListBody)
  setResult : Int → Except String HttpResponse

/-- Go `unicode.IsSpace` on the Latin-1 range (the characters
`strings.TrimSpace` strips; space characters outside Latin-1 are not
modelled). -/
def goIsSpace (c : Char) : Bool :=
  c = ' ' ∨ c = '\t' ∨ c = '\n' ∨ c = Char.ofNat 11 ∨ c = Char.ofNat 12 ∨
    c = '\r' ∨ c = Char.ofNat 133 ∨ c = Char.ofNat 160

/-- Go `strings.TrimSpace`: drop leading and trailing white space. -/
def trimSpace (s : String) : String :=
  String.mk (((s.data.dropWhile goIsSpace).reverse.dropWhile goIsSpace).reverse)

/-- `GetExternalIP` from main.go: GET the IP-discovery endpoint, return
the whitespace-trimmed body.  The response status is never inspected. -/
def GetExternalIP (env : Env) : List Event × Except String String :=
  match env.ipResult with
  | Except.error e => ([Event.httpGetIP], Except.error e)
  | Except.ok res => ([Event.httpGetIP], Except.ok (trimSpace res.body))

/-- Go `encoding/json` object-field lookup: the last binding of a key
wins. -/
def getField (fields : List (String × Json)) (key : String) : Option Json :=
  fields.foldl (fun acc kv => if kv.1 = key then some kv.2 else acc) none

/-- Unmarshal an optional JSON value into a Go `int` field: a missing
field or JSON `null` leaves the zero value; a number is taken as is;
anything else is a type error. -/
def decodeIntField : Option Json → Except String Int
  | none => Except.ok 0
  | some Json.null => Except.ok 0
  | some (Json.num n) => Except.ok n
  | some _ => Except.error "json: cannot unmarshal value into field of type int"

/-- Unmarshal an optional JSON value into a Go `string` field: a missing
field or JSON `null` leaves the zero value `""`. -/
def decodeStrField : Option Json → Except String String
  | none => Except.ok ""
  | some Json.null => Except.ok ""
  | some (Json.str s) => Except.ok s
  | some _ => Except.error "json: cannot unmarshal value into field of type string"

/-- Unmarshal one element of `domain_records` into a `DomainRecord`. -/
def decodeDomainRecord : Json → Except String DomainRecord
  | Json.null => Except.ok ⟨0, "", "", "", 0, 0, 0⟩
  | Json.obj fs => do
      let i ← decodeIntField (getField fs "id")
      let t ← decodeStrField (getField fs "type")
      let n ← decodeStrField (getField fs "name")
      let d ← decodeStrField (getField fs "data")
      let pr ← decodeIntField (getField fs "priority")
      let po ← decodeIntField (getField fs "port")
      let w ← decodeIntField (getField fs "weight")
      Except.ok ⟨i, t, n, d, pr, po, w⟩
  | _ => Except.error "json: cannot unmarshal value into DomainRecord"

/-- `json.Unmarshal(body, &domainRecordsResponse)` followed by reading
`.DomainRecords`: a missing or null `domain_records` key leaves the
zero value (nil slice); the `links` and `meta` fields are ignored. -/
def unmarshalDomainRecords : Json → Except String (List DomainRecord)
  | Json.null => Except.ok []
  | Json.obj fs =>
      match getField fs "domain_records" with
      | none => Except.ok []
      | some Json.null => Except.ok []
      | some (Json.arr elems) => elems.mapM decodeDomainRecord
      | some _ => Except.error "json: cannot unmarshal value into field domain_records"
  | _ => Except.error "json: cannot unmarshal value into DomainRecordResponse"

/-- `GetDomainRecords` from main.go: authenticated GET of
`/domains/{domain}/records`, JSON-unmarshal the body, return the
`domain_records` list.  The response status is never inspected. -/
def GetDomainRecords (domain token : String) (env : Env) :
    List Event × Except String (List DomainRecord) :=
  match env.listResult with
  | Except.error e => ([Event.httpListRecords domain token], Except.error e)
  | Except.ok (_, ListBody.notJson _) =>
      ([Event.httpListRecords domain token],
       Except.error "invalid character in JSON body")
  | Except.ok (_, ListBody.json j) =>
      ([Event.httpListRecords domain token], unmarshalDomainRecords j)

/-- `SetDomainRecord` from main.go: authenticated PUT of
`{"data": IP}` to `/domains/{domain}/records/{recordID}`; on a received
response the raw body is echoed to stdout and nil is returned, whatever
the status; a transport (or body-read) failure returns the error. -/
def SetDomainRecord (domain : String) (recordID : Int) (IP token : String) (env : Env) :
    List Event × Except String Unit :=
  match env.setResult recordID with
  | Except.error e => ([Event.httpPut domain recordID IP token], Except.error e)
  | Except.ok res =>
      ([Event.httpPut domain recordID IP token, Event.stdout (res.body ++ "\n")],
       Except.ok ())

/-- `CheckRecord` from main.go.  Note that the `error` returned by
`SetDomainRecord` is discarded (the Go call ignores its result), so only
the events survive. -/
def CheckRecord (config : DomainConfig) (record : DomainRecord) (recordName : String)
    (externalIP token : String) (env : Env) : List Event :=
  if record.type = "A" ∧ record.name = recordName then
    [Event.stdout (record.name ++ " " ++ record.data ++ "\n")] ++
      (if externalIP ≠ record.data then
        (SetDomainRecord config.domain record.id externalIP token env).1
      else [])
  else []

/-- The body of `CheckDomain`'s record loop: check the record against
the apex name `"@"` and then against every configured subdomain. -/
def processRecordEvents (config : DomainConfig) (record : DomainRecord)
    (externalIP token : String) (env : Env) : List Event :=
  CheckRecord config record "@" externalIP token env ++
    config.subdomains.flatMap (fun subdomain =>
      CheckRecord config record subdomain externalIP token env)

/-- `CheckDomain` from main.go: resolve the external IP (on failure
report to stderr and stop), print it, fetch the domain's records (on
failure report to stderr and stop), then run `CheckRecord` for every
record against `"@"` and every configured subdomain. -/
def CheckDomain (config : DomainConfig) (token : String) (env : Env) : List Event :=
  (GetExternalIP env).1 ++
    match (GetExternalIP env).2 with
    | Except.error e => [Event.stderr (e ++ "\n")]
    | Except.ok externalIP =>
        [Event.stdout ("External IP: " ++ externalIP ++ "\n")] ++
        (GetDomainRecords config.domain token env).1 ++
        match (GetDomainRecords config.domain token env).2 with
        | Except.error e => [Event.stderr (e ++ "\n")]
        | Except.ok domainRecords =>
            domainRecords.flatMap (fun record =>
              processRecordEvents config record externalIP token env)

/-- Outcome of `main` at startup (after `init` has parsed the
configuration successfully): either the process terminates with an exit
code and a stderr message, or it registers recurring jobs and blocks
forever, or `main` returns normally (process exit status 0, nothing
written). -/
inductive MainOutcome
  | exit (code : Nat) (stderrMsg : String)
  | schedule (periodMinutes : Nat) (jobs : List DomainConfig)
  | exitClean
deriving Repr, DecidableEq

/-- `main` from main.go, given the `DO_TOKEN` value and the parsed
domain list.  gocron semantics: `gocron.Every(10).Minutes().Do(f)`
registers a recurring job and returns at once, while `<-gocron.Start()`
receives from a channel that is never written, so it blocks the loop
forever.  Hence with a non-empty domain list the first iteration
registers the first domain's job and then blocks: no further domain is
ever scheduled.  With an empty list the loop body never runs and `main`
returns (exit status 0, no output). -/
def mainGo (token : String) (domains : List DomainConfig) : MainOutcome :=
  if token ≠ "" then
    match domains with
    | [] => MainOutcome.exitClean
    | d :: _ => MainOutcome.schedule 10 [d]
  else MainOutcome.exit 1 "Env variables are not configured correctly.\n"

/-- Running the reconciliation cycle twice in a row on the same inputs
(same resolved IP, same fetched record list). -/
def runCycleTwice (config : DomainConfig) (token : String) (env : Env) :
    List Event × List Event :=
  (CheckDomain config token env, CheckDomain config token env)

/-- The update (PUT) calls of a trace, as
(domain, recordID, payloadData, token) tuples. -/
def putsIn (trace : List Event) : List (String × Int × String × String) :=
  trace.filterMap (fun e =>
    match e with
    | Event.httpPut d i p t => some (d, i, p, t)
    | _ => none)

/-- Whether an event is a stderr write. -/
def Event.isStderr : Event → Bool
  | Event.stderr _ => true
  | _ => false

/-- The `"data"` payloads of the update calls of a trace that target a
given record id, in order. -/
def putsFor (trace : List Event) (recordID : Int) : List String :=
  (putsIn trace).filterMap (fun q => if q.2.1 = recordID then some q.2.2.1 else none)

/-- One record after the provider has applied every update call of a
trace that targets it: the last pushed payload becomes its data. -/
def applyUpdate (trace : List Event) (r : DomainRecord) : DomainRecord :=
  match (putsFor trace r.id).getLast? with
  | some d => { r with data := d }
  | none => r

/-- The provider's record list after it has applied every update call of
a trace. -/
def applyUpdates (trace : List Event) (records : List DomainRecord) :
    List DomainRecord :=
  records.map (applyUpdate trace)

/-! ## Helper lemmas: the update (PUT) calls of a cycle -/

theorem putsIn_append (a b : List Event) : putsIn (a ++ b) = putsIn a ++ putsIn b :=
  List.filterMap_append a b _

theorem putsIn_flatMap {α : Type} (l : List α) (f : α → List Event) :
    putsIn (l.flatMap f) = l.flatMap (fun x => putsIn (f x)) := by
  induction l with
  | nil => rfl
  | cons x xs ih => simp only [List.flatMap_cons, putsIn_append, ih]

theorem putsIn_SetDomainRecord (domain : String) (recordID : Int) (IP token : String)
    (env : Env) :
    putsIn (SetDomainRecord domain recordID IP token env).1 = [(domain, recordID, IP, token)] := by
  unfold SetDomainRecord
  split <;> rfl

theorem putsIn_CheckRecord (config : DomainConfig) (record : DomainRecord)
    (recordName externalIP token : String) (env : Env) :
    putsIn (CheckRecord config record recordName externalIP token env) =
      if record.type = "A" ∧ record.name = recordName ∧ externalIP ≠ record.data then
        [(config.domain, record.id, externalIP, token)]
      else [] := by
  unfold CheckRecord
  by_cases h1 : record.type = "A" ∧ record.name = recordName
  · by_cases h2 : externalIP ≠ record.data
    · rw [if_pos h1, if_pos h2, if_pos ⟨h1.1, h1.2, h2⟩, putsIn_append,
        putsIn_SetDomainRecord]
      rfl
    · rw [if_pos h1, if_neg h2, if_neg (fun h => h2 h.2.2)]
      rfl
  · rw [if_neg h1, if_neg (fun h => h1 ⟨h.1, h.2.1⟩)]
    rfl

theorem putsIn_processRecordEvents (config : DomainConfig) (record : DomainRecord)
    (externalIP token : String) (env : Env) :
    putsIn (processRecordEvents config record externalIP token env) =
      ("@" :: config.subdomains).flatMap (fun n =>
        if record.type = "A" ∧ record.name = n ∧ externalIP ≠ record.data then
          [(config.domain, record.id, externalIP, token)]
        else []) := by
  unfold processRecordEvents
  rw [putsIn_append, putsIn_flatMap, List.flatMap_cons]
  simp only [putsIn_CheckRecord]

theorem mem_putsIn_processRecordEvents (config : DomainConfig) (record : DomainRecord)
    (externalIP token : String) (env : Env) (q : String × Int × String × String) :
    q ∈ putsIn (processRecordEvents config record externalIP token env) ↔
      q = (config.domain, record.id, externalIP, token) ∧ record.type = "A" ∧
        (record.name = "@" ∨ record.name ∈ config.subdomains) ∧
        externalIP ≠ record.data := by
  rw [putsIn_processRecordEvents, List.mem_flatMap]
  constructor
  · rintro ⟨n, hn, hq⟩
    by_cases h : record.type = "A" ∧ record.name = n ∧ externalIP ≠ record.data
    · rw [if_pos h] at hq
      rcases List.mem_singleton.mp hq with rfl
      refine ⟨rfl, h.1, ?_, h.2.2⟩
      rcases List.mem_cons.mp hn with h' | h'
      · left
        rw [h.2.1, h']
      · right
        rw [h.2.1]
        exact h'
    · rw [if_neg h] at hq
      cases hq
  · rintro ⟨rfl, hA, hname, hip⟩
    refine ⟨record.name, ?_, ?_⟩
    · rcases hname with h | h
      · rw [h]
        exact List.mem_cons_self _ _
      · exact List.mem_cons_of_mem _ h
    · rw [if_pos ⟨hA, rfl, hip⟩]
      exact List.mem_singleton.mpr rfl

theorem GetExternalIP_events (env : Env) : (GetExternalIP env).1 = [Event.httpGetIP] := by
  unfold GetExternalIP
  split <;> rfl

theorem GetDomainRecords_events (domain token : String) (env : Env) :
    (GetDomainRecords domain token env).1 = [Event.httpListRecords domain token] := by
  unfold GetDomainRecords
  split <;> rfl

theorem CheckDomain_eq (config : DomainConfig) (token : String) (env : Env)
    (externalIP : String) (records : List DomainRecord)
    (h1 : (GetExternalIP env).2 = Except.ok externalIP)
    (h2 : (GetDomainRecords config.domain token env).2 = Except.ok records) :
    CheckDomain config token env =
      [Event.httpGetIP, Event.stdout ("External IP: " ++ externalIP ++ "\n"),
        Event.httpListRecords config.domain token] ++
        records.flatMap (fun record =>
          processRecordEvents config record externalIP token env) := by
  unfold CheckDomain
  rw [GetExternalIP_events, h1, GetDomainRecords_events, h2]
  rfl

theorem putsIn_CheckDomain (config : DomainConfig) (token : String) (env : Env)
    (externalIP : String) (records : List DomainRecord)
    (h1 : (GetExternalIP env).2 = Except.ok externalIP)
    (h2 : (GetDomainRecords config.domain token env).2 = Except.ok records) :
    putsIn (CheckDomain config token env) =
      records.flatMap (fun record =>
        putsIn (processRecordEvents config record externalIP token env)) := by
  rw [CheckDomain_eq config token env externalIP records h1 h2, putsIn_append,
    putsIn_flatMap]
  rfl

theorem mem_putsIn_CheckDomain (config : DomainConfig) (token : String) (env : Env)
    (externalIP : String) (records : List DomainRecord)
    (h1 : (GetExternalIP env).2 = Except.ok externalIP)
    (h2 : (GetDomainRecords config.domain token env).2 = Except.ok records)
    (q : String × Int × String × String) :
    q ∈ putsIn (CheckDomain config token env) ↔
      ∃ record ∈ records, q = (config.domain, record.id, externalIP, token) ∧
        record.type = "A" ∧
        (record.name = "@" ∨ record.name ∈ config.subdomains) ∧
        externalIP ≠ record.data := by
  rw [putsIn_CheckDomain config token env externalIP records h1 h2, List.mem_flatMap]
  simp only [mem_putsIn_processRecordEvents]

/-! ## Claim theorems -/

/-- C9: the IP resolver returns the whitespace-trimmed response body as
the external IP for every HTTP response that is received and readable,
regardless of the HTTP status code (`res.status` is arbitrary and never
inspected) — a non-2xx error page body is accepted as the IP value. -/
theorem C9_getExternalIP_ignores_status (env : Env) (res : HttpResponse)
    (h : env.ipResult = Except.ok res) :
    (GetExternalIP env).2 = Except.ok (trimSpace res.body) := by
  unfold GetExternalIP
  rw [h]

/-- Environment for the C9 witness: the IP endpoint answers with status
500 and an error-page body. -/
def envC9 : Env :=
  { ipResult := Except.ok ⟨500, " 198.51.100.7\n"⟩
    listResult := Except.error "unused"
    setResult := fun _ => Except.error "unused" }

/-- C9 witness: a status-500 response body is trimmed and accepted. -/
theorem C9_witness : (GetExternalIP envC9).2 = Except.ok "198.51.100.7" :=
  C9_getExternalIP_ignores_status envC9 ⟨500, " 198.51.100.7\n"⟩ rfl

/-- C7: `SetDomainRecord` issues a PUT whose JSON body carries the new
data (and the bearer token), reports the provider's response body
verbatim without parsing it, and returns an error exactly when a
transport-level failure occurs — a response with any status counts as
success. -/
theorem C7_setDomainRecord_transport (domain : String) (recordID : Int)
    (IP token : String) (env : Env) :
    (∀ e, env.setResult recordID = Except.error e →
      SetDomainRecord domain recordID IP token env =
        ([Event.httpPut domain recordID IP token], Except.error e)) ∧
    (∀ res, env.setResult recordID = Except.ok res →
      SetDomainRecord domain recordID IP token env =
        ([Event.httpPut domain recordID IP token, Event.stdout (res.body ++ "\n")],
         Except.ok ())) := by
  constructor
  · intro e he
    unfold SetDomainRecord
    rw [he]
  · intro res hres
    unfold SetDomainRecord
    rw [hres]

/-- Environment for the C7 witness: updating record 1 hits a transport
failure; updating record 2 receives a 403 response. -/
def envC7 : Env :=
  { ipResult := Except.error "unused"
    listResult := Except.error "unused"
    setResult := fun i =>
      if i = 1 then Except.error "dial tcp: connection refused"
      else Except.ok ⟨403, "forbidden"⟩ }

/-- C7 witness: transport failure returns the error; a 403 response is
a success whose body is echoed. -/
theorem C7_witness :
    SetDomainRecord "example.com" 1 "203.0.113.9" "tok" envC7 =
      ([Event.httpPut "example.com" 1 "203.0.113.9" "tok"],
       Except.error "dial tcp: connection refused") ∧
    SetDomainRecord "example.com" 2 "203.0.113.9" "tok" envC7 =
      ([Event.httpPut "example.com" 2 "203.0.113.9" "tok",
        Event.stdout ("forbidden" ++ "\n")], Except.ok ()) :=
  ⟨(C7_setDomainRecord_transport "example.com" 1 "203.0.113.9" "tok" envC7).1 _ rfl,
   (C7_setDomainRecord_transport "example.com" 2 "203.0.113.9" "tok" envC7).2
     ⟨403, "forbidden"⟩ rfl⟩

/-- C6: if IP resolution fails, the cycle aborts with the failure
reported on stderr and no record-listing or update call is made; if
record listing fails, the cycle aborts with the failure reported on
stderr and no update call is made for that domain in that cycle. -/
theorem C6_partial_failure_ordering (config : DomainConfig) (token : String)
    (env : Env) :
    (∀ e, (GetExternalIP env).2 = Except.error e →
      CheckDomain config token env = [Event.httpGetIP, Event.stderr (e ++ "\n")]) ∧
    (∀ ip e, (GetExternalIP env).2 = Except.ok ip →
      (GetDomainRecords config.domain token env).2 = Except.error e →
      CheckDomain config token env =
        [Event.httpGetIP, Event.stdout ("External IP: " ++ ip ++ "\n"),
         Event.httpListRecords config.domain token, Event.stderr (e ++ "\n")]) := by
  constructor
  · intro e he
    unfold CheckDomain
    rw [GetExternalIP_events, he]
    rfl
  · intro ip e hip hlist
    unfold CheckDomain
    rw [GetExternalIP_events, hip, GetDomainRecords_events, hlist]
    rfl

/-- Environment for the first half of the C6 witness: IP resolution
fails. -/
def envC6a : Env :=
  { ipResult := Except.error "Get http://myexternalip.com/raw: no such host"
    listResult := Except.ok (200, ListBody.json Json.null)
    setResult := fun _ => Except.ok ⟨200, "ok"⟩ }

/-- Environment for the second half of the C6 witness: IP resolution
succeeds, record listing fails. -/
def envC6b : Env :=
  { ipResult := Except.ok ⟨200, "203.0.113.9"⟩
    listResult := Except.error "read tcp: connection reset by peer"
    setResult := fun _ => Except.ok ⟨200, "ok"⟩ }

/-- C6 witness: the two abort traces at concrete failing environments. -/
theorem C6_witness :
    CheckDomain ⟨"example.com", ["www"]⟩ "tok" envC6a =
      [Event.httpGetIP,
       Event.stderr ("Get http://myexternalip.com/raw: no such host" ++ "\n")] ∧
    CheckDomain ⟨"example.com", ["www"]⟩ "tok" envC6b =
      [Event.httpGetIP, Event.stdout ("External IP: " ++ "203.0.113.9" ++ "\n"),
       Event.httpListRecords "example.com" "tok",
       Event.stderr ("read tcp: connection reset by peer" ++ "\n")] :=
  ⟨(C6_partial_failure_ordering ⟨"example.com", ["www"]⟩ "tok" envC6a).1 _ rfl,
   (C6_partial_failure_ordering ⟨"example.com", ["www"]⟩ "tok" envC6b).2
     "203.0.113.9" "read tcp: connection reset by peer" rfl rfl⟩

/-- C10: when the record-listing body is valid JSON without a
`domain_records` key (or with it bound to null), `GetDomainRecords`
returns an empty record list with no error, and the cycle completes
with zero report lines and zero update calls. -/
theorem C10_missing_domain_records (config : DomainConfig) (token : String)
    (env : Env) (status : Nat) (fields : List (String × Json)) (ip : String)
    (hip : (GetExternalIP env).2 = Except.ok ip)
    (hl : env.listResult = Except.ok (status, ListBody.json (Json.obj fields)))
    (hf : getField fields "domain_records" = none ∨
      getField fields "domain_records" = some Json.null) :
    (GetDomainRecords config.domain token env).2 = Except.ok [] ∧
    CheckDomain config token env =
      [Event.httpGetIP, Event.stdout ("External IP: " ++ ip ++ "\n"),
       Event.httpListRecords config.domain token] := by
  have hrec : (GetDomainRecords config.domain token env).2 = Except.ok [] := by
    unfold GetDomainRecords
    rw [hl]
    show unmarshalDomainRecords (Json.obj fields) = Except.ok []
    rcases hf with h | h <;> simp only [unmarshalDomainRecords, h]
  refine ⟨hrec, ?_⟩
  rw [CheckDomain_eq config token env ip [] hip hrec]
  rfl

/-- Environment for the C10 witness: the listing body is a JSON object
with only pagination data and no `domain_records` key. -/
def envC10 : Env :=
  { ipResult := Except.ok ⟨200, "203.0.113.9"⟩
    listResult := Except.ok (200, ListBody.json (Json.obj [("links", Json.null)]))
    setResult := fun _ => Except.ok ⟨200, "ok"⟩ }

/-- C10 witness at a concrete body lacking `domain_records`. -/
theorem C10_witness :
    (GetDomainRecords "example.com" "tok" envC10).2 = Except.ok [] ∧
    CheckDomain ⟨"example.com", ["www"]⟩ "tok" envC10 =
      [Event.httpGetIP, Event.stdout ("External IP: " ++ "203.0.113.9" ++ "\n"),
       Event.httpListRecords "example.com" "tok"] :=
  C10_missing_domain_records ⟨"example.com", ["www"]⟩ "tok" envC10 200
    [("links", Json.null)] "203.0.113.9" rfl rfl (Or.inl rfl)

/-- C4: within one reconciliation cycle for a domain, an update call is
issued for a fetched record R iff R.type = "A", R.name equals "@" or a
configured subdomain name, and R.data differs from the resolved
external IP; moreover every issued update carries the resolved external
IP as its new data.  (Record ids are provider-assigned and unique
within a zone, whence the Nodup hypothesis.) -/
theorem C4_update_iff (config : DomainConfig) (token : String) (env : Env)
    (externalIP : String) (records : List DomainRecord) (r : DomainRecord)
    (h1 : (GetExternalIP env).2 = Except.ok externalIP)
    (h2 : (GetDomainRecords config.domain token env).2 = Except.ok records)
    (hr : r ∈ records)
    (hids : (records.map DomainRecord.id).Nodup) :
    ((config.domain, r.id, externalIP, token) ∈ putsIn (CheckDomain config token env) ↔
      r.type = "A" ∧ (r.name = "@" ∨ r.name ∈ config.subdomains) ∧
        r.data ≠ externalIP) ∧
    (∀ d i p t, (d, i, p, t) ∈ putsIn (CheckDomain config token env) →
      d = config.domain ∧ p = externalIP ∧ t = token) := by
  constructor
  · rw [mem_putsIn_CheckDomain config token env externalIP records h1 h2]
    constructor
    · rintro ⟨r', hr', heq, hA, hname, hip⟩
      simp only [Prod.mk.injEq] at heq
      have hrr : r' = r :=
        List.inj_on_of_nodup_map hids hr' hr (heq.2.1.symm)
      subst hrr
      exact ⟨hA, hname, hip.symm⟩
    · rintro ⟨hA, hname, hip⟩
      exact ⟨r, hr, rfl, hA, hname, hip.symm⟩
  · intro d i p t hmem
    rw [mem_putsIn_CheckDomain config token env externalIP records h1 h2] at hmem
    obtain ⟨r', _, heq, _⟩ := hmem
    simp only [Prod.mk.injEq] at heq
    exact ⟨heq.1, heq.2.2.1, heq.2.2.2⟩

/-- Configuration of the spec's own worked scenario: example.com with
subdomain www. -/
def cfgScenario : DomainConfig := ⟨"example.com", ["www"]⟩

/-- The three records of the spec's worked scenario, as the provider's
JSON response. -/
def scenarioListBody : Json :=
  Json.obj [("domain_records", Json.arr
    [Json.obj [("id", Json.num 1), ("type", Json.str "A"),
      ("name", Json.str "@"), ("data", Json.str "203.0.113.1")],
     Json.obj [("id", Json.num 2), ("type", Json.str "A"),
      ("name", Json.str "www"), ("data", Json.str "203.0.113.9")],
     Json.obj [("id", Json.num 3), ("type", Json.str "CNAME"),
      ("name", Json.str "www"), ("data", Json.str "example.com")]]),
    ("links", Json.null), ("meta", Json.null)]

/-- The parsed records of the worked scenario. -/
def scenarioRecords : List DomainRecord :=
  [⟨1, "A", "@", "203.0.113.1", 0, 0, 0⟩,
   ⟨2, "A", "www", "203.0.113.9", 0, 0, 0⟩,
   ⟨3, "CNAME", "www", "example.com", 0, 0, 0⟩]

/-- Environment of the spec's worked scenario: resolved IP 203.0.113.9,
the three records above, updates succeed. -/
def envScenario : Env :=
  { ipResult := Except.ok ⟨200, "203.0.113.9\n"⟩
    listResult := Except.ok (200, ListBody.json scenarioListBody)
    setResult := fun _ => Except.ok ⟨200, "updated"⟩ }

/-- C4 witness: in the worked scenario the stale apex record (id 1)
gets an update call carrying the resolved IP. -/
theorem C4_witness :
    ("example.com", (1 : Int), "203.0.113.9", "tok") ∈
      putsIn (CheckDomain cfgScenario "tok" envScenario) :=
  ((C4_update_iff cfgScenario "tok" envScenario "203.0.113.9" scenarioRecords
      ⟨1, "A", "@", "203.0.113.1", 0, 0, 0⟩ rfl rfl (by decide) (by decide)).1).mpr
    (by decide)

/-- The count of the report line of a single `CheckRecord` call: one
when the record's type is "A" and its name is the candidate name, else
zero.  The hypothesis rules out a PUT response body whose echo is
literally the report line. -/
theorem count_report_CheckRecord (config : DomainConfig) (record : DomainRecord)
    (recordName externalIP token : String) (env : Env)
    (hbody : ∀ res, env.setResult record.id = Except.ok res →
      res.body ++ "\n" ≠ record.name ++ " " ++ record.data ++ "\n") :
    List.count (Event.stdout (record.name ++ " " ++ record.data ++ "\n"))
        (CheckRecord config record recordName externalIP token env) =
      if record.type = "A" ∧ record.name = recordName then 1 else 0 := by
  unfold CheckRecord
  by_cases h1 : record.type = "A" ∧ record.name = recordName
  · rw [if_pos h1, if_pos h1]
    by_cases h2 : externalIP ≠ record.data
    · rw [if_pos h2]
      unfold SetDomainRecord
      cases hset : env.setResult record.id with
      | error e => simp
      | ok res =>
          have hb := hbody res hset
          simp [List.count_cons, hb]
    · rw [if_neg h2]
      simp
  · rw [if_neg h1, if_neg h1]
    simp

/-- The report-line count over a list of candidate names: one per
candidate entry equal to the record's name (duplicates counted), when
the record's type is "A". -/
theorem count_report_flatMap (config : DomainConfig) (record : DomainRecord)
    (externalIP token : String) (env : Env) (names : List String)
    (hbody : ∀ res, env.setResult record.id = Except.ok res →
      res.body ++ "\n" ≠ record.name ++ " " ++ record.data ++ "\n") :
    List.count (Event.stdout (record.name ++ " " ++ record.data ++ "\n"))
        (names.flatMap (fun n => CheckRecord config record n externalIP token env)) =
      if record.type = "A" then List.count record.name names else 0 := by
  induction names with
  | nil => by_cases hA : record.type = "A" <;> simp [hA]
  | cons n ns ih =>
      rw [List.flatMap_cons, List.count_append,
        count_report_CheckRecord config record n externalIP token env hbody, ih,
        List.count_cons]
      by_cases hA : record.type = "A"
      · by_cases hn : record.name = n
        · simp [hA, hn, Nat.add_comm]
        · simp [hA, hn, Ne.symm hn]
      · simp [hA]

/-- C5: for every fetched record R with type "A" whose name equals the
apex marker "@" or a configured subdomain entry, the reconciler writes
the report line "R.name R.data" exactly once per matching candidate
name per cycle — the candidates being "@" plus every subdomain entry,
so a duplicated subdomain (or "@" listed as a subdomain) yields one
report per occurrence.  The hypothesis rules out the degenerate
environment whose echoed PUT response body is literally the report
line itself. -/
theorem C5_report_once_per_match (config : DomainConfig) (record : DomainRecord)
    (externalIP token : String) (env : Env)
    (hbody : ∀ res, env.setResult record.id = Except.ok res →
      res.body ++ "\n" ≠ record.name ++ " " ++ record.data ++ "\n") :
    List.count (Event.stdout (record.name ++ " " ++ record.data ++ "\n"))
        (processRecordEvents config record externalIP token env) =
      if record.type = "A" then List.count record.name ("@" :: config.subdomains)
      else 0 := by
  unfold processRecordEvents
  rw [List.count_append,
    count_report_CheckRecord config record "@" externalIP token env hbody,
    count_report_flatMap config record externalIP token env config.subdomains hbody,
    List.count_cons]
  by_cases hA : record.type = "A"
  · by_cases hn : record.name = "@"
    · simp [hA, hn, Nat.add_comm]
    · simp [hA, hn, Ne.symm hn]
  · simp [hA]

/-- Environment for the C5 witness: no network call succeeds, so the
cycle under test is just the per-record processing. -/
def envC5 : Env :=
  { ipResult := Except.error "unused"
    listResult := Except.error "unused"
    setResult := fun _ => Except.error "dial tcp: connection refused" }

/-- C5 witness: with subdomain list ["www", "www", "@"] an "A" record
named "www" is reported exactly twice — once per matching candidate
entry. -/
theorem C5_witness :
    List.count (Event.stdout ("www" ++ " " ++ "198.51.100.1" ++ "\n"))
        (processRecordEvents ⟨"example.com", ["www", "www", "@"]⟩
          ⟨7, "A", "www", "198.51.100.1", 0, 0, 0⟩ "198.51.100.2" "tok" envC5) = 2 :=
  (C5_report_once_per_match ⟨"example.com", ["www", "www", "@"]⟩
      ⟨7, "A", "www", "198.51.100.1", 0, 0, 0⟩ "198.51.100.2" "tok" envC5
      (fun res h => by cases h)).trans (by decide)

/-- `SetDomainRecord` never writes to stderr: its error, if any, is
returned, not reported. -/
theorem filter_isStderr_SetDomainRecord (domain : String) (recordID : Int)
    (IP token : String) (env : Env) :
    ((SetDomainRecord domain recordID IP token env).1).filter Event.isStderr = [] := by
  unfold SetDomainRecord
  split <;> rfl

/-- `CheckRecord` never writes to stderr: in particular, when its
`SetDomainRecord` call fails, the error is discarded silently. -/
theorem filter_isStderr_CheckRecord (config : DomainConfig) (record : DomainRecord)
    (recordName externalIP token : String) (env : Env) :
    (CheckRecord config record recordName externalIP token env).filter
      Event.isStderr = [] := by
  unfold CheckRecord
  by_cases h1 : record.type = "A" ∧ record.name = recordName
  · rw [if_pos h1, List.filter_append]
    by_cases h2 : externalIP ≠ record.data
    · rw [if_pos h2, filter_isStderr_SetDomainRecord]
      rfl
    · rw [if_neg h2]
      rfl
  · rw [if_neg h1]
    rfl

/-- C3 amended: once IP resolution and record listing have succeeded,
the cycle writes nothing at all to the error stream — an individual
`SetDomainRecord` failure is NOT reported (its returned error is
discarded) — and every record of the fetched list is still processed
(the cycle is the concatenation of each record's events). -/
theorem C3_update_failure_silent (config : DomainConfig) (token : String)
    (env : Env) (externalIP : String) (records : List DomainRecord)
    (h1 : (GetExternalIP env).2 = Except.ok externalIP)
    (h2 : (GetDomainRecords config.domain token env).2 = Except.ok records) :
    (CheckDomain config token env).filter Event.isStderr = [] := by
  have h3 : (records.flatMap fun record =>
      processRecordEvents config record externalIP token env).filter
        Event.isStderr = [] := by
    rw [List.filter_flatMap, List.flatMap_eq_nil_iff]
    intro r _
    unfold processRecordEvents
    rw [List.filter_append, filter_isStderr_CheckRecord, List.nil_append,
      List.filter_flatMap, List.flatMap_eq_nil_iff]
    intro n _
    exact filter_isStderr_CheckRecord config r n externalIP token env
  rw [CheckDomain_eq config token env externalIP records h1 h2, List.filter_append, h3]
  rfl

/-- Records for the C3 scenario: two stale "A" records. -/
def listBodyC3 : Json :=
  Json.obj [("domain_records", Json.arr
    [Json.obj [("id", Json.num 1), ("type", Json.str "A"),
      ("name", Json.str "@"), ("data", Json.str "1.1.1.1")],
     Json.obj [("id", Json.num 2), ("type", Json.str "A"),
      ("name", Json.str "www"), ("data", Json.str "2.2.2.2")]])]

/-- The parsed records of the C3 scenario. -/
def recordsC3 : List DomainRecord :=
  [⟨1, "A", "@", "1.1.1.1", 0, 0, 0⟩, ⟨2, "A", "www", "2.2.2.2", 0, 0, 0⟩]

/-- Environment for C3: both records are stale; the update of record 1
hits a transport failure, the update of record 2 succeeds. -/
def envC3 : Env :=
  { ipResult := Except.ok ⟨200, "9.9.9.9"⟩
    listResult := Except.ok (200, ListBody.json listBodyC3)
    setResult := fun i =>
      if i = 1 then Except.error "Put records/1: dial tcp: i/o timeout"
      else Except.ok ⟨200, "updated"⟩ }

/-- C3 counterexample: the update call for record 1 fails, yet the
cycle's trace contains no stderr line at all (the failure is silently
swallowed, contradicting the claim that it is reported), while the
failing call was indeed issued and processing continued to record 2. -/
theorem C3_counterexample :
    (CheckDomain cfgScenario "tok" envC3).filter Event.isStderr = [] ∧
    Event.httpPut "example.com" 1 "9.9.9.9" "tok" ∈
      CheckDomain cfgScenario "tok" envC3 ∧
    Event.httpPut "example.com" 2 "9.9.9.9" "tok" ∈
      CheckDomain cfgScenario "tok" envC3 := by
  refine ⟨?_, ?_, ?_⟩ <;> decide

/-- C3 witness: the amended theorem applied to the same scenario. -/
theorem C3_witness :
    (CheckDomain cfgScenario "tok" envC3).filter Event.isStderr = [] :=
  C3_update_failure_silent cfgScenario "tok" envC3 "9.9.9.9" recordsC3 rfl rfl

/-- Every data payload pushed for any record id during a successful
cycle is the resolved external IP. -/
theorem putsFor_CheckDomain_eq_ip (config : DomainConfig) (token : String)
    (env : Env) (externalIP : String) (records : List DomainRecord)
    (h1 : (GetExternalIP env).2 = Except.ok externalIP)
    (h2 : (GetDomainRecords config.domain token env).2 = Except.ok records)
    (i : Int) (d : String)
    (hd : d ∈ putsFor (CheckDomain config token env) i) : d = externalIP := by
  unfold putsFor at hd
  obtain ⟨q, hq, hif⟩ := List.mem_filterMap.mp hd
  obtain ⟨r, -, rfl, -, -, -⟩ :=
    (mem_putsIn_CheckDomain config token env externalIP records h1 h2 q).mp hq
  split at hif
  · exact (Option.some.inj hif).symm
  · exact Option.noConfusion hif

/-- A stale matching record contributes the external IP to the update
payloads pushed for its id. -/
theorem ip_mem_putsFor_of_match (config : DomainConfig) (token : String)
    (env : Env) (externalIP : String) (records : List DomainRecord)
    (h1 : (GetExternalIP env).2 = Except.ok externalIP)
    (h2 : (GetDomainRecords config.domain token env).2 = Except.ok records)
    (r : DomainRecord) (hr : r ∈ records)
    (hc : r.type = "A" ∧ (r.name = "@" ∨ r.name ∈ config.subdomains) ∧
      externalIP ≠ r.data) :
    externalIP ∈ putsFor (CheckDomain config token env) r.id := by
  have hq : (config.domain, r.id, externalIP, token) ∈
      putsIn (CheckDomain config token env) :=
    (mem_putsIn_CheckDomain config token env externalIP records h1 h2 _).mpr
      ⟨r, hr, rfl, hc.1, hc.2.1, hc.2.2⟩
  unfold putsFor
  exact List.mem_filterMap.mpr ⟨_, hq, by rw [if_pos rfl]⟩

/-- A record whose data already equals the external IP contributes no
update call. -/
theorem putsIn_processRecordEvents_of_current (config : DomainConfig)
    (record : DomainRecord) (externalIP token : String) (env : Env)
    (h : record.data = externalIP) :
    putsIn (processRecordEvents config record externalIP token env) = [] := by
  rw [putsIn_processRecordEvents, List.flatMap_eq_nil_iff]
  intro n _
  rw [if_neg]
  rintro ⟨-, -, hip⟩
  exact hip h.symm

/-- C8 amended: a second reconciliation cycle with the same resolved
external IP, run on the provider's records after every update call of
the first cycle has taken effect (and nothing else changed them),
issues zero update calls. -/
theorem C8_second_cycle_no_updates (config : DomainConfig) (token : String)
    (env env' : Env) (externalIP : String) (records : List DomainRecord)
    (h1 : (GetExternalIP env).2 = Except.ok externalIP)
    (h1' : (GetExternalIP env').2 = Except.ok externalIP)
    (h2 : (GetDomainRecords config.domain token env).2 = Except.ok records)
    (h2' : (GetDomainRecords config.domain token env').2 =
      Except.ok (applyUpdates (CheckDomain config token env) records)) :
    putsIn (CheckDomain config token env') = [] := by
  rw [putsIn_CheckDomain config token env' externalIP
    (applyUpdates (CheckDomain config token env) records) h1' h2',
    List.flatMap_eq_nil_iff]
  intro r' hr'
  unfold applyUpdates at hr'
  obtain ⟨r, hr, hfr⟩ := List.mem_map.mp hr'
  cases hl : (putsFor (CheckDomain config token env) r.id).getLast? with
  | some d =>
      have hd : d = externalIP :=
        putsFor_CheckDomain_eq_ip config token env externalIP records h1 h2 r.id d
          (List.mem_of_getLast?_eq_some hl)
      have hr2 : r' = { r with data := d } := by
        rw [← hfr]
        unfold applyUpdate
        rw [hl]
      rw [hr2]
      exact putsIn_processRecordEvents_of_current config _ externalIP token env'
        (by simp [hd])
  | none =>
      have hr2 : r' = r := by
        rw [← hfr]
        unfold applyUpdate
        rw [hl]
      rw [hr2]
      by_cases hc : r.type = "A" ∧ (r.name = "@" ∨ r.name ∈ config.subdomains) ∧
        externalIP ≠ r.data
      · exfalso
        have hmem := ip_mem_putsFor_of_match config token env externalIP records
          h1 h2 r hr hc
        rw [List.getLast?_eq_none_iff.mp hl] at hmem
        cases hmem
      · rw [putsIn_processRecordEvents, List.flatMap_eq_nil_iff]
        intro n hn
        rw [if_neg]
        rintro ⟨hA, hname, hip⟩
        refine hc ⟨hA, ?_, hip⟩
        rcases List.mem_cons.mp hn with h | h
        · left
          rw [hname, h]
        · right
          rw [hname]
          exact h

/-- The single stale apex record of the C8 scenario. -/
def recordsC8 : List DomainRecord := [⟨1, "A", "@", "203.0.113.1", 0, 0, 0⟩]

/-- First-cycle environment for C8: the apex record is stale. -/
def envC8a : Env :=
  { ipResult := Except.ok ⟨200, "203.0.113.9"⟩
    listResult := Except.ok (200, ListBody.json (Json.obj [("domain_records",
      Json.arr [Json.obj [("id", Json.num 1), ("type", Json.str "A"),
        ("name", Json.str "@"), ("data", Json.str "203.0.113.1")]])]))
    setResult := fun _ => Except.ok ⟨200, "updated"⟩ }

/-- Second-cycle environment for C8: same IP, and the provider now
serves the record as updated by the first cycle. -/
def envC8b : Env :=
  { ipResult := Except.ok ⟨200, "203.0.113.9"⟩
    listResult := Except.ok (200, ListBody.json (Json.obj [("domain_records",
      Json.arr [Json.obj [("id", Json.num 1), ("type", Json.str "A"),
        ("name", Json.str "@"), ("data", Json.str "203.0.113.9")]])]))
    setResult := fun _ => Except.ok ⟨200, "updated"⟩ }

/-- C8 counterexample: running the cycle twice with the SAME resolved
IP and the SAME fetched record list (as the claim literally states)
repeats the update call — the second run issues one update, not zero,
whenever the shared list is stale. -/
theorem C8_counterexample :
    putsIn (runCycleTwice cfgScenario "tok" envC8a).2 =
      [("example.com", 1, "203.0.113.9", "tok")] ∧
    putsIn (runCycleTwice cfgScenario "tok" envC8a).2 ≠ [] := by
  refine ⟨by decide, by decide⟩

/-- C8 witness: the amended theorem at the concrete two-cycle
scenario. -/
theorem C8_witness : putsIn (CheckDomain cfgScenario "tok" envC8b) = [] :=
  C8_second_cycle_no_updates cfgScenario "tok" envC8a envC8b "203.0.113.9"
    recordsC8 rfl rfl rfl rfl

/-- C1 amended: with a present credential and an empty configured
domain list, `main`'s scheduling loop never executes: the process makes
no network calls, writes no error message, and `main` returns normally
(exit status 0) instead of terminating with status 1. -/
theorem C1_empty_domains_clean_exit (token : String) (h : token ≠ "") :
    mainGo token [] = MainOutcome.exitClean := by
  unfold mainGo
  rw [if_pos h]

/-- C1 witness: the amended behaviour at a concrete credential. -/
theorem C1_witness : mainGo "sometoken" [] = MainOutcome.exitClean :=
  C1_empty_domains_clean_exit "sometoken" (by decide)

/-- C1 counterexample: with credential "token" and an empty domain
list, the outcome is a clean exit (status 0, nothing written), not
termination with exit status 1 and an error message as the claim
states. -/
theorem C1_counterexample :
    mainGo "token" [] = MainOutcome.exitClean ∧
    MainOutcome.exitClean ≠
      MainOutcome.exit 1 "Env variables are not configured correctly.\n" := by
  refine ⟨by decide, by decide⟩

/-- C2: evaluating `main` at two configured domains shows that only the
first domain's job is ever registered (the loop blocks on
`<-gocron.Start()` during its first iteration), so the second domain is
never reconciled on any tick — contradicting the claim (and §9 of the
spec's design notes, which name "run all configured domains each tick"
as the intended behaviour). -/
theorem C2_only_first_domain_scheduled :
    mainGo "tok" [⟨"example.com", ["www"]⟩, ⟨"example.org", []⟩] =
      MainOutcome.schedule 10 [⟨"example.com", ["www"]⟩] := by decide

end DiyDyndns

